import Mathlib

/-!
Shallow embedding of the Pong game in `main.py` (single-file Pygame script).

Conventions of the embedding:
* Python ints (paddle coordinates, scores, arena constants) become `ℤ`/`ℕ`;
  Python floats (ball position, speed, direction factors) become `ℚ` — every
  arithmetic operation the ball performs in the source is transcribed exactly.
* Mutating methods become functions returning the updated record.
* Rendering, colors, fonts and the event pump are out of scope (the spec's
  external collaborators); the per-tick directional intents appear as an
  explicit `Intents` argument to the tick function.
-/

namespace Pong

/-- Arena width, `WIDTH = 900` in main.py. -/
def WIDTH : ℤ := 900

/-- Arena height, `HEIGHT = 600` in main.py. -/
def HEIGHT : ℤ := 600

/-- Constant `WINNING_SCORE = 5` in main.py. -/
def WINNING_SCORE : ℕ := 5

/-- A pygame `Rect` (integer coordinates; pygame truncates float inputs). -/
structure Rect where
  x : ℤ
  y : ℤ
  w : ℤ
  h : ℤ
deriving DecidableEq, Repr

/-- Python `int(...)` truncation toward zero, applied by pygame to floats. -/
def pyInt (q : ℚ) : ℤ :=
  if q < 0 then ⌈q⌉ else ⌊q⌋

/-- pygame `Rect.colliderect` for rectangles of positive size: strict
axis-aligned overlap on both axes. -/
def Rect.colliderect (a b : Rect) : Bool :=
  decide (a.x < b.x + b.w ∧ b.x < a.x + a.w ∧ a.y < b.y + b.h ∧ b.y < a.y + a.h)

/-- The `Striker` (paddle) class: position, dimensions and per-tick speed
(all Python ints). The color attribute is render-only and omitted. -/
structure Striker where
  pos_x : ℤ
  pos_y : ℤ
  width : ℤ
  height : ℤ
  speed : ℤ
deriving DecidableEq, Repr

/-- Method `Striker.update(y_fac)`: move by `speed * y_fac`, then clamp `pos_y` by
`max(0, min(pos_y, HEIGHT - height))`. -/
def Striker.update (p : Striker) (y_fac : ℤ) : Striker :=
  { p with pos_y := max 0 (min (p.pos_y + p.speed * y_fac) (HEIGHT - p.height)) }

/-- Method `Striker.get_rect()`: the paddle's rectangle `Rect(pos_x, pos_y, width,
height)` (rebuilt from the current position on every update). -/
def Striker.get_rect (p : Striker) : Rect :=
  ⟨p.pos_x, p.pos_y, p.width, p.height⟩

/-- Iterated `Striker.update` over a sequence of directional intents. -/
def Striker.runUpdates (p : Striker) (l : List ℤ) : Striker :=
  l.foldl Striker.update p

/-- The `Ball` class: float position/speed/direction factors (`ℚ` here),
integer radius, and the one-shot scoring latch `first_time`. -/
structure Ball where
  pos_x : ℚ
  pos_y : ℚ
  radius : ℤ
  speed : ℚ
  x_fac : ℚ
  y_fac : ℚ
  first_time : Bool
deriving DecidableEq, Repr

/-- Constructor `Ball.__init__(pos_x, pos_y, radius, speed, color)`: stores
`speed * 0.5` as the effective speed, starts moving up-right
(`x_fac = 1.0`, `y_fac = -1.0`) with the latch set. -/
def Ball.init (pos_x pos_y : ℚ) (radius : ℤ) (speed : ℚ) : Ball :=
  { pos_x := pos_x
    pos_y := pos_y
    radius := radius
    speed := speed * (1 / 2)
    x_fac := 1
    y_fac := -1
    first_time := true }

/-- Result of `Ball.update()`: the new ball state and the returned scoring
signal (`1` right player scores, `-1` left player scores, `0` neutral). -/
structure BallUpdate where
  ball : Ball
  point : ℤ
deriving DecidableEq, Repr

/-- Method `Ball.update()`: advance by `speed * (x_fac, y_fac)`; flip `y_fac` when
the vertical edge reaches the top or bottom; then, only while the latch is
set, report a goal-line crossing and clear the latch. -/
def Ball.update (b : Ball) : BallUpdate :=
  let px := b.pos_x + b.speed * b.x_fac
  let py := b.pos_y + b.speed * b.y_fac
  let yf := if py - (b.radius : ℚ) ≤ 0 ∨ py + (b.radius : ℚ) ≥ (HEIGHT : ℚ)
            then b.y_fac * (-1) else b.y_fac
  if px - (b.radius : ℚ) ≤ 0 ∧ b.first_time then
    ⟨{ b with pos_x := px, pos_y := py, y_fac := yf, first_time := false }, 1⟩
  else if px + (b.radius : ℚ) ≥ (WIDTH : ℚ) ∧ b.first_time then
    ⟨{ b with pos_x := px, pos_y := py, y_fac := yf, first_time := false }, -1⟩
  else
    ⟨{ b with pos_x := px, pos_y := py, y_fac := yf }, 0⟩

/-- Method `Ball.reset()`: recenter at `(WIDTH // 2, HEIGHT // 2)`, invert `x_fac`,
set `y_fac = -1 if y_fac > 0 else 1`, restore the latch. -/
def Ball.reset (b : Ball) : Ball :=
  { b with
    pos_x := ((WIDTH / 2 : ℤ) : ℚ)
    pos_y := ((HEIGHT / 2 : ℤ) : ℚ)
    x_fac := b.x_fac * (-1)
    y_fac := if b.y_fac > 0 then -1 else 1
    first_time := true }

/-- Method `Ball.hit(paddle)`: `offset = ((pos_y - paddle.pos_y) / paddle.height)
- 0.5`, then `y_fac = offset * 2` and `x_fac *= -1`. -/
def Ball.hit (b : Ball) (paddle : Striker) : Ball :=
  let offset := (b.pos_y - (paddle.pos_y : ℚ)) / (paddle.height : ℚ) - 1 / 2
  { b with y_fac := offset * 2, x_fac := b.x_fac * (-1) }

/-- Method `Ball.get_rect()`: `Rect(int(pos_x) - radius, int(pos_y) - radius,
2 * radius, 2 * radius)`. -/
def Ball.get_rect (b : Ball) : Rect :=
  ⟨pyInt b.pos_x - b.radius, pyInt b.pos_y - b.radius, 2 * b.radius, 2 * b.radius⟩

/-- The mutable state the main loop owns: both paddles, the ball, and the
two score counters. -/
structure GameState where
  green_player : Striker
  red_player : Striker
  ball : Ball
  green_score : ℕ
  red_score : ℕ
deriving DecidableEq, Repr

/-- The per-tick directional intents (`green_y_fac`, `red_y_fac` in main.py),
set by the event-handling section from key-down/key-up events. -/
structure Intents where
  green_y_fac : ℤ
  red_y_fac : ℤ
deriving DecidableEq, Repr

/-- The session lifecycle state (spec §4.4): intro screen, playing, or the
game-over screen that `game_over_screen` shows after a win. -/
inductive MatchState where
  | Intro
  | Playing
  | MatchOver
deriving DecidableEq, Repr

/-- What one iteration of the main loop produces: the updated game state,
the scoring signal `point` returned by `Ball.update`, and whether the win
check hands control to the game-over screen. -/
structure TickResult where
  state : GameState
  point : ℤ
  next : MatchState
deriving DecidableEq, Repr

/-- One iteration of the `while running` body in `main()`, transcribed in
source order: (1) event handling has already produced the intents `i`;
(2) COLLISIONS — for each player in `[green_player, red_player]`, if the
ball's rect collides with the paddle's rect, `ball.hit(player)`;
(3) UPDATE OBJECTS — `green_player.update`, `red_player.update`,
`point = ball.update()`; (4) SCORE LOGIC — increment the scorer's counter,
and if `point` is nonzero, pause then `ball.reset()`; (5) CHECK WIN
CONDITION — a score at `WINNING_SCORE` leads to the game-over screen.
The 700 ms pause is a real-time stall with no state effect and has no
counterpart here. -/
def tick (s : GameState) (i : Intents) : TickResult :=
  let b1 := if Rect.colliderect s.ball.get_rect s.green_player.get_rect
            then s.ball.hit s.green_player else s.ball
  let b2 := if Rect.colliderect b1.get_rect s.red_player.get_rect
            then b1.hit s.red_player else b1
  let green := s.green_player.update i.green_y_fac
  let red := s.red_player.update i.red_y_fac
  let u := b2.update
  let gr := if u.point = -1 then (s.green_score + 1, s.red_score)
            else if u.point = 1 then (s.green_score, s.red_score + 1)
            else (s.green_score, s.red_score)
  let b3 := if u.point ≠ 0 then u.ball.reset else u.ball
  let next := if WINNING_SCORE ≤ gr.1 ∨ WINNING_SCORE ≤ gr.2
              then MatchState.MatchOver else MatchState.Playing
  ⟨⟨green, red, b3, gr.1, gr.2⟩, u.point, next⟩

/-- The COLLISIONS section of the loop body in isolation. -/
def collisionStep (s : GameState) : GameState :=
  let b1 := if Rect.colliderect s.ball.get_rect s.green_player.get_rect
            then s.ball.hit s.green_player else s.ball
  let b2 := if Rect.colliderect b1.get_rect s.red_player.get_rect
            then b1.hit s.red_player else b1
  { s with ball := b2 }

/-- The paddle-update part of the UPDATE OBJECTS section in isolation. -/
def paddleStep (s : GameState) (i : Intents) : GameState :=
  { s with
    green_player := s.green_player.update i.green_y_fac
    red_player := s.red_player.update i.red_y_fac }

/-- The ball-update part of the UPDATE OBJECTS section in isolation:
returns the new state and the scoring signal. -/
def ballStep (s : GameState) : GameState × ℤ :=
  let u := s.ball.update
  ({ s with ball := u.ball }, u.point)

/-- The SCORE LOGIC section in isolation: apply the point to the counters
and, when a point was scored, reset the ball. -/
def scoreStep (s : GameState) (point : ℤ) : GameState :=
  let gr := if point = -1 then (s.green_score + 1, s.red_score)
            else if point = 1 then (s.green_score, s.red_score + 1)
            else (s.green_score, s.red_score)
  let b := if point ≠ 0 then s.ball.reset else s.ball
  { s with green_score := gr.1, red_score := gr.2, ball := b }

/-- The CHECK WIN CONDITION section in isolation. -/
def winCheck (s : GameState) : MatchState :=
  if WINNING_SCORE ≤ s.green_score ∨ WINNING_SCORE ≤ s.red_score
  then MatchState.MatchOver else MatchState.Playing

/-- The loop body as a composition of the isolated sections, in the order
the source executes them: collisions, then paddle updates, then the ball
update, then score logic, then the win check. -/
def tickComposed (s : GameState) (i : Intents) : TickResult :=
  let s1 := collisionStep s
  let s2 := paddleStep s1 i
  let p := ballStep s2
  let s4 := scoreStep p.1 p.2
  ⟨s4, p.2, winCheck s4⟩

/-- The loop body recomposed in the ORDER THE SPEC CLAIMS (§5): paddle
update, then ball update, then collision resolution, then score logic,
then the win check. Written only to compare with `tick`. -/
def tickSpecOrder (s : GameState) (i : Intents) : TickResult :=
  let s1 := paddleStep s i
  let p := ballStep s1
  let s3 := collisionStep p.1
  let s4 := scoreStep s3 p.2
  ⟨s4, p.2, winCheck s4⟩

/-- The scoring side, as the spec's `ScoreTracker` names it: `green` is the
left player, `red` the right player. -/
inductive Side where
  | green
  | red
deriving DecidableEq, Repr

/-- The SCORE LOGIC increments of main.py as an `applyScore(side)`
operation on the pair of counters `(green_score, red_score)`. -/
def applyScore (side : Side) (g r : ℕ) : ℕ × ℕ :=
  match side with
  | Side.green => (g + 1, r)
  | Side.red => (g, r + 1)

/-- Operation `applyScore` repeated `n` times for the same side. -/
def applyScoreN (side : Side) : ℕ → ℕ × ℕ → ℕ × ℕ
  | 0, gr => gr
  | n + 1, gr => applyScoreN side n (applyScore side gr.1 gr.2)

/-- The CHECK WIN CONDITION test of main.py as a `hasWinner(threshold)`
query: `if green_score >= W or red_score >= W`, the winner is green when
`green_score >= W` and red otherwise. -/
def hasWinner (w g r : ℕ) : Option Side :=
  if w ≤ g ∨ w ≤ r then (if w ≤ g then some Side.green else some Side.red)
  else none

/-- The ball `main()` constructs: `Ball(WIDTH // 2, HEIGHT // 2, 8, 8, WHITE)`. -/
def ball0 : Ball := Ball.init 450 300 8 8

/-- The ball after `n` bare `Ball.update()` calls from `ball0`. -/
def ballIter : ℕ → Ball
  | 0 => ball0
  | n + 1 => (ballIter n).update.ball

/-- A game state aimed at the right goal line: green has 4 points and the
ball, at `x = 890` moving right, is about to cross `x + radius ≥ WIDTH`. -/
def servingState : GameState :=
  ⟨⟨20, 250, 10, 100, 10⟩, ⟨870, 250, 10, 100, 10⟩,
   ⟨890, 300, 8, 4, 1, -1, true⟩, 4, 0⟩

/-- A game state whose ball overlaps the green paddle at the start of the
tick, so that the placement of collision resolution inside the tick is
observable. -/
def overlapState : GameState :=
  ⟨⟨20, 250, 10, 100, 10⟩, ⟨870, 250, 10, 100, 10⟩,
   ⟨30, 300, 8, 4, 1, -1, true⟩, 0, 0⟩

/-!  Projection lemmas for `Ball.update`: the moved position, the carried
fields, and the wall-reflection rule for `y_fac`. -/

theorem Ball.update_pos_x (b : Ball) :
    b.update.ball.pos_x = b.pos_x + b.speed * b.x_fac := by
  simp only [Ball.update]
  split_ifs <;> rfl

theorem Ball.update_pos_y (b : Ball) :
    b.update.ball.pos_y = b.pos_y + b.speed * b.y_fac := by
  simp only [Ball.update]
  split_ifs <;> rfl

theorem Ball.update_speed (b : Ball) : b.update.ball.speed = b.speed := by
  simp only [Ball.update]
  split_ifs <;> rfl

theorem Ball.update_radius (b : Ball) : b.update.ball.radius = b.radius := by
  simp only [Ball.update]
  split_ifs <;> rfl

theorem Ball.update_x_fac (b : Ball) : b.update.ball.x_fac = b.x_fac := by
  simp only [Ball.update]
  split_ifs <;> rfl

theorem Ball.update_y_fac (b : Ball) :
    b.update.ball.y_fac =
      if b.pos_y + b.speed * b.y_fac - (b.radius : ℚ) ≤ 0
          ∨ b.pos_y + b.speed * b.y_fac + (b.radius : ℚ) ≥ (HEIGHT : ℚ)
      then b.y_fac * (-1) else b.y_fac := by
  simp only [Ball.update]
  split_ifs <;> rfl

/-- One `Striker.update` lands in the clamping interval, whatever the prior
position and whatever the intent, as long as the paddle fits the arena. -/
theorem Striker.update_bounds (p : Striker) (i : ℤ) (hh : p.height ≤ HEIGHT) :
    0 ≤ (p.update i).pos_y ∧ (p.update i).pos_y ≤ HEIGHT - p.height := by
  simp only [Striker.update, HEIGHT] at hh ⊢
  omega

theorem Striker.update_height (p : Striker) (i : ℤ) :
    (p.update i).height = p.height := rfl

/-- Operation `applyScore` iterated for the green side adds `n` to the green counter. -/
theorem applyScoreN_green (n : ℕ) (g r : ℕ) :
    applyScoreN Side.green n (g, r) = (g + n, r) := by
  induction n generalizing g with
  | zero => rfl
  | succ m ih =>
      show applyScoreN Side.green m (g + 1, r) = (g + (m + 1), r)
      rw [ih (g + 1)]
      congr 1
      omega

/-- Operation `applyScore` iterated for the red side adds `n` to the red counter. -/
theorem applyScoreN_red (n : ℕ) (g r : ℕ) :
    applyScoreN Side.red n (g, r) = (g, r + n) := by
  induction n generalizing r with
  | zero => rfl
  | succ m ih =>
      show applyScoreN Side.red m (g, r + 1) = (g, r + (m + 1))
      rw [ih (r + 1)]
      congr 1
      omega

/-- Claim C1, refuted at a concrete input: in `servingState` green reaches
the winning score on this tick and the session transitions to MatchOver,
yet the resulting ball is recentered at `x = 450` with the scoring latch
restored — whereas the un-reset post-update ball sits at `x = 894` with the
latch cleared. So `Ball.reset()` IS called on the winning tick; the
pause-then-reset path is not skipped. -/
theorem C1_counterexample :
    (tick servingState ⟨0, 0⟩).next = MatchState.MatchOver
  ∧ (tick servingState ⟨0, 0⟩).state.ball.first_time = true
  ∧ (tick servingState ⟨0, 0⟩).state.ball.pos_x = 450
  ∧ ((collisionStep servingState).ball.update).ball.first_time = false
  ∧ ((collisionStep servingState).ball.update).ball.pos_x = 894 := by
  refine ⟨?_, ?_, ?_, ?_, ?_⟩ <;>
    norm_num [tick, collisionStep, servingState, Ball.update, Ball.hit, Ball.reset,
      Ball.get_rect, Striker.get_rect, Rect.colliderect, pyInt, WIDTH, HEIGHT,
      WINNING_SCORE]

/-- Claim C1 as amended: on every tick whose `Ball.update` reports a point,
the SCORE LOGIC section runs `ball.reset()` unconditionally — the resulting
ball is exactly the reset of the post-update ball, winner or not — and only
afterwards does the win check transition the session to MatchOver. -/
theorem C1_reset_runs_on_winning_tick (s : GameState) (i : Intents) :
    ((tick s i).point ≠ 0 →
        (tick s i).state.ball = ((collisionStep s).ball.update).ball.reset)
  ∧ (WINNING_SCORE ≤ (tick s i).state.green_score
        ∨ WINNING_SCORE ≤ (tick s i).state.red_score →
        (tick s i).next = MatchState.MatchOver) := by
  constructor
  · intro h
    show (if (tick s i).point ≠ 0
          then ((collisionStep s).ball.update).ball.reset
          else ((collisionStep s).ball.update).ball)
        = ((collisionStep s).ball.update).ball.reset
    exact if_pos h
  · intro h
    show (if WINNING_SCORE ≤ (tick s i).state.green_score
            ∨ WINNING_SCORE ≤ (tick s i).state.red_score
          then MatchState.MatchOver else MatchState.Playing)
        = MatchState.MatchOver
    exact if_pos h

/-- Witness for C1: the amended theorem applied to `servingState`, where
the point scored on this tick makes green the winner. -/
theorem C1_witness :
    (tick servingState ⟨0, 0⟩).state.ball
        = ((collisionStep servingState).ball.update).ball.reset
  ∧ (tick servingState ⟨0, 0⟩).next = MatchState.MatchOver :=
  ⟨(C1_reset_runs_on_winning_tick servingState ⟨0, 0⟩).1 (by
      norm_num [tick, servingState, Ball.update, Ball.hit, Ball.get_rect,
        Striker.get_rect, Rect.colliderect, pyInt, WIDTH, HEIGHT]),
   (C1_reset_runs_on_winning_tick servingState ⟨0, 0⟩).2 (by
      norm_num [tick, servingState, Ball.update, Ball.hit, Ball.get_rect,
        Striker.get_rect, Rect.colliderect, pyInt, WIDTH, HEIGHT, WINNING_SCORE])⟩

/-- Claim C2, refuted at a concrete input: a ball moving downward
(`y_fac = 1 > 0`) is reset to `y_fac = -1 < 0` — the sign of `y_fac` is
inverted by `reset()`, not preserved as the claim states. -/
theorem C2_counterexample :
    (0 : ℚ) < (⟨100, 200, 8, 4, 1, 1, false⟩ : Ball).y_fac
  ∧ (Ball.reset ⟨100, 200, 8, 4, 1, 1, false⟩).y_fac < 0 := by
  constructor <;> norm_num [Ball.reset]

/-- Claim C2 as amended: for every prior ball state, `reset()` recenters
the position at `(450, 300)`, multiplies `x_fac` by `-1`, sets `y_fac` to a
unit vertical component whose sign is the OPPOSITE of the sign `y_fac` had
before the reset (`-1` if it was positive, `+1` otherwise), restores the
scoring latch, and is idempotent on position. -/
theorem C2_reset_state (b : Ball) :
    b.reset.pos_x = 450 ∧ b.reset.pos_y = 300
  ∧ b.reset.x_fac = -b.x_fac
  ∧ (0 < b.y_fac → b.reset.y_fac = -1)
  ∧ (b.y_fac ≤ 0 → b.reset.y_fac = 1)
  ∧ b.reset.first_time = true
  ∧ b.reset.reset.pos_x = 450 ∧ b.reset.reset.pos_y = 300 := by
  refine ⟨?_, ?_, ?_, fun h => ?_, fun h => ?_, rfl, ?_, ?_⟩
  · show ((WIDTH / 2 : ℤ) : ℚ) = 450
    norm_num [WIDTH]
  · show ((HEIGHT / 2 : ℤ) : ℚ) = 300
    norm_num [HEIGHT]
  · show b.x_fac * (-1) = -b.x_fac
    ring
  · show (if b.y_fac > 0 then (-1 : ℚ) else 1) = -1
    rw [if_pos h]
  · show (if b.y_fac > 0 then (-1 : ℚ) else 1) = 1
    rw [if_neg (not_lt.mpr h)]
  · show ((WIDTH / 2 : ℤ) : ℚ) = 450
    norm_num [WIDTH]
  · show ((HEIGHT / 2 : ℤ) : ℚ) = 300
    norm_num [HEIGHT]

/-- Witness for C2: both sign cases of the amended reset rule, at concrete
balls moving down (`y_fac = 1`) and up (`y_fac = -1`). -/
theorem C2_witness :
    (Ball.reset ⟨100, 200, 8, 4, 1, 1, false⟩).y_fac = -1
  ∧ (Ball.reset ⟨100, 200, 8, 4, 1, -1, true⟩).y_fac = 1 :=
  ⟨(C2_reset_state ⟨100, 200, 8, 4, 1, 1, false⟩).2.2.2.1 (by norm_num),
   (C2_reset_state ⟨100, 200, 8, 4, 1, -1, true⟩).2.2.2.2.1 (by norm_num)⟩

/-- Claim C3, refuted at a concrete input: with the ball overlapping the
green paddle at the start of the tick, the loop body (collisions BEFORE the
paddle/ball updates) produces a different result from the order the claim
states (collision resolution after the ball update). -/
theorem C3_counterexample :
    tick overlapState ⟨0, 0⟩ ≠ tickSpecOrder overlapState ⟨0, 0⟩ := by
  have h1 : (tick overlapState ⟨0, 0⟩).state.ball.pos_x = 26 := by
    norm_num [tick, overlapState, Ball.update, Ball.hit, Ball.get_rect,
      Striker.get_rect, Rect.colliderect, pyInt, WIDTH, HEIGHT]
  have h2 : (tickSpecOrder overlapState ⟨0, 0⟩).state.ball.pos_x = 34 := by
    norm_num [tickSpecOrder, overlapState, paddleStep, ballStep, collisionStep,
      scoreStep, winCheck, Ball.update, Ball.hit, Ball.get_rect, Striker.get_rect,
      Striker.update, Rect.colliderect, pyInt, WIDTH, HEIGHT, min_def, max_def]
  intro h
  rw [h, h2] at h1
  norm_num at h1

/-- Claim C3 as amended: each Playing tick is exactly the composition, in
this order, of: read input intents, paddle-ball collision resolution, paddle
update, ball update, score application (with ball reset on a point), and the
win-condition transition check; rendering then reads the result. -/
theorem C3_tick_order (s : GameState) (i : Intents) :
    tick s i = tickComposed s i := rfl

/-- Claim C4: for every paddle that fits the arena, every sequence of
directional intents drawn from `{-1, 0, +1}` and every number of ticks, the
y-position after each `Striker.update` lies within
`[0, arenaHeight - height]`. -/
theorem C4_paddle_clamped (p : Striker) (l : List ℤ) (hh : p.height ≤ HEIGHT)
    (hl : ∀ j ∈ l, j = -1 ∨ j = 0 ∨ j = 1) (hne : l ≠ []) :
    0 ≤ (p.runUpdates l).pos_y ∧ (p.runUpdates l).pos_y ≤ HEIGHT - p.height := by
  induction l generalizing p with
  | nil => exact absurd rfl hne
  | cons a t ih =>
      cases t with
      | nil => exact Striker.update_bounds p a hh
      | cons c t2 =>
          have hh2 : (p.update a).height ≤ HEIGHT := by
            rw [Striker.update_height]
            exact hh
          have h2 := ih (p.update a) hh2
            (fun j hj => hl j (List.mem_cons_of_mem a hj)) (List.cons_ne_nil c t2)
          rw [Striker.update_height] at h2
          exact h2

/-- Witness for C4: the green paddle of `main()` run through a concrete
intent sequence stays in `[0, 500]`. -/
theorem C4_witness :
    0 ≤ ((⟨20, 250, 10, 100, 10⟩ : Striker).runUpdates [1, -1, 0, 1]).pos_y
  ∧ ((⟨20, 250, 10, 100, 10⟩ : Striker).runUpdates [1, -1, 0, 1]).pos_y
      ≤ HEIGHT - 100 :=
  C4_paddle_clamped ⟨20, 250, 10, 100, 10⟩ [1, -1, 0, 1]
    (by norm_num [HEIGHT]) (by decide) (by decide)

/-- Claim C5: the scoring latch emits exactly one signal per crossing. With
the latch set, the first update whose post-move left edge crosses `x = 0`
returns `1` (right player scores) and clears the latch; symmetrically a
right-edge crossing returns `-1`; with the latch cleared, every update
returns the neutral `0` and leaves the latch cleared; `reset()` restores the
latch and `hit()` never touches it. -/
theorem C5_latch_single_signal (b : Ball) (p : Striker) :
    (b.first_time = true →
        b.pos_x + b.speed * b.x_fac - (b.radius : ℚ) ≤ 0 →
        b.update.point = 1 ∧ b.update.ball.first_time = false)
  ∧ (b.first_time = true →
        ¬(b.pos_x + b.speed * b.x_fac - (b.radius : ℚ) ≤ 0) →
        b.pos_x + b.speed * b.x_fac + (b.radius : ℚ) ≥ (WIDTH : ℚ) →
        b.update.point = -1 ∧ b.update.ball.first_time = false)
  ∧ (b.first_time = false →
        b.update.point = 0 ∧ b.update.ball.first_time = false)
  ∧ b.reset.first_time = true
  ∧ (b.hit p).first_time = b.first_time := by
  refine ⟨?_, ?_, ?_, rfl, rfl⟩
  · intro h1 h2
    simp only [Ball.update]
    rw [if_pos ⟨h2, h1⟩]
    exact ⟨rfl, rfl⟩
  · intro h1 h2 h3
    simp only [Ball.update]
    rw [if_neg (fun hc => h2 hc.1), if_pos ⟨h3, h1⟩]
    exact ⟨rfl, rfl⟩
  · intro h1
    have hft : ¬(b.first_time = true) := by
      rw [h1]
      exact Bool.false_ne_true
    simp only [Ball.update]
    rw [if_neg (fun hc => hft hc.2), if_neg (fun hc => hft hc.2)]
    exact ⟨rfl, h1⟩

/-- Witness for C5: a left crossing signals `1` once and clears the latch,
a right crossing signals `-1`, a latch-cleared ball signals `0`, and
`reset()` restores the latch. -/
theorem C5_witness :
    (Ball.update ⟨10, 300, 8, 4, -1, -1, true⟩).point = 1
  ∧ (Ball.update ⟨10, 300, 8, 4, -1, -1, true⟩).ball.first_time = false
  ∧ (Ball.update ⟨890, 300, 8, 4, 1, -1, true⟩).point = -1
  ∧ (Ball.update ⟨450, 300, 8, 4, 1, -1, false⟩).point = 0
  ∧ (Ball.reset ⟨450, 300, 8, 4, 1, -1, false⟩).first_time = true :=
  ⟨((C5_latch_single_signal ⟨10, 300, 8, 4, -1, -1, true⟩ ⟨0, 0, 0, 0, 0⟩).1
      rfl (by norm_num)).1,
   ((C5_latch_single_signal ⟨10, 300, 8, 4, -1, -1, true⟩ ⟨0, 0, 0, 0, 0⟩).1
      rfl (by norm_num)).2,
   ((C5_latch_single_signal ⟨890, 300, 8, 4, 1, -1, true⟩ ⟨0, 0, 0, 0, 0⟩).2.1
      rfl (by norm_num) (by norm_num [WIDTH])).1,
   ((C5_latch_single_signal ⟨450, 300, 8, 4, 1, -1, false⟩ ⟨0, 0, 0, 0, 0⟩).2.2.1
      rfl).1,
   (C5_latch_single_signal ⟨450, 300, 8, 4, 1, -1, false⟩ ⟨0, 0, 0, 0, 0⟩).2.2.2.1⟩

/-- Claim C6: from zeroed counters, `applyScore` for one side `n` times
yields `n` for that side and `0` for the other; `hasWinner` with threshold
5 reports no winner while both counters are below 5 and reports the side
whose counter has reached 5; in particular `(4, 0)` gives none and `(5, 0)`
gives the left (green) side. -/
theorem C6_score_counters :
    (∀ n : ℕ, applyScoreN Side.green n (0, 0) = (n, 0))
  ∧ (∀ n : ℕ, applyScoreN Side.red n (0, 0) = (0, n))
  ∧ (∀ g r : ℕ, g < 5 → r < 5 → hasWinner 5 g r = none)
  ∧ (∀ g r : ℕ, 5 ≤ g → r < 5 → hasWinner 5 g r = some Side.green)
  ∧ (∀ g r : ℕ, 5 ≤ r → g < 5 → hasWinner 5 g r = some Side.red)
  ∧ hasWinner 5 4 0 = none
  ∧ hasWinner 5 5 0 = some Side.green := by
  refine ⟨fun n => ?_, fun n => ?_, fun g r hg hr => ?_, fun g r hg hr => ?_,
    fun g r hr hg => ?_, by decide, by decide⟩
  · rw [applyScoreN_green]
    rw [Nat.zero_add]
  · rw [applyScoreN_red]
    rw [Nat.zero_add]
  · simp only [hasWinner]
    rw [if_neg (by omega)]
  · simp only [hasWinner]
    rw [if_pos (Or.inl hg), if_pos hg]
  · simp only [hasWinner]
    rw [if_pos (Or.inr hr), if_neg (by omega)]

/-- Witness for C6: the winner query at concrete counters below, at, and
beyond the threshold. -/
theorem C6_witness :
    hasWinner 5 3 2 = none
  ∧ hasWinner 5 6 2 = some Side.green
  ∧ hasWinner 5 2 6 = some Side.red :=
  ⟨C6_score_counters.2.2.1 3 2 (by omega) (by omega),
   C6_score_counters.2.2.2.1 6 2 (by omega) (by omega),
   C6_score_counters.2.2.2.2.1 2 6 (by omega) (by omega)⟩

/-- Claim C7: on a paddle collision, `Ball.hit` sets `y_fac` to the offset
of the ball center from the paddle center normalized by half the paddle
height (so contact across the paddle's vertical span maps onto `[-1, +1]`),
assigned directly with no dependence on the prior velocity, and multiplies
`x_fac` by `-1`. -/
theorem C7_hit_angle (b : Ball) (p : Striker) (hp : 0 < p.height) :
    (b.hit p).y_fac
        = (b.pos_y - ((p.pos_y : ℚ) + (p.height : ℚ) / 2)) / ((p.height : ℚ) / 2)
  ∧ (b.hit p).x_fac = -b.x_fac
  ∧ ((p.pos_y : ℚ) ≤ b.pos_y → b.pos_y ≤ (p.pos_y : ℚ) + (p.height : ℚ) →
        -1 ≤ (b.hit p).y_fac ∧ (b.hit p).y_fac ≤ 1) := by
  have hq : (0 : ℚ) < (p.height : ℚ) := by exact_mod_cast hp
  have hy : (b.hit p).y_fac
      = ((b.pos_y - (p.pos_y : ℚ)) / (p.height : ℚ) - 1 / 2) * 2 := rfl
  refine ⟨?_, ?_, fun h1 h2 => ?_⟩
  · rw [hy]
    field_simp
    ring
  · show b.x_fac * (-1) = -b.x_fac
    ring
  · have hd1 : 0 ≤ (b.pos_y - (p.pos_y : ℚ)) / (p.height : ℚ) :=
      div_nonneg (by linarith) hq.le
    have hd2 : (b.pos_y - (p.pos_y : ℚ)) / (p.height : ℚ) ≤ 1 :=
      (div_le_one hq).mpr (by linarith)
    rw [hy]
    constructor <;> linarith

/-- Witness for C7: a ball striking the green paddle of `main()` inside its
vertical span gets a deflection factor within `[-1, 1]`. -/
theorem C7_witness :
    -1 ≤ (Ball.hit ⟨30, 300, 8, 4, 1, -1, true⟩ ⟨20, 250, 10, 100, 10⟩).y_fac
  ∧ (Ball.hit ⟨30, 300, 8, 4, 1, -1, true⟩ ⟨20, 250, 10, 100, 10⟩).y_fac ≤ 1 :=
  (C7_hit_angle ⟨30, 300, 8, 4, 1, -1, true⟩ ⟨20, 250, 10, 100, 10⟩
    (by norm_num)).2.2 (by norm_num) (by norm_num)

/-- Claim C8: on any `Ball.update` whose pre-update vertical edges lie
strictly inside the arena and whose post-update vertical edge crosses the
top or bottom boundary, the sign of `y_fac` is flipped exactly once: the
resulting `y_fac` is exactly the negation of the old one. -/
theorem C8_wall_reflection (b : Ball)
    (hpre : 0 < b.pos_y - (b.radius : ℚ) ∧ b.pos_y + (b.radius : ℚ) < (HEIGHT : ℚ))
    (hcross : b.pos_y + b.speed * b.y_fac - (b.radius : ℚ) ≤ 0
        ∨ b.pos_y + b.speed * b.y_fac + (b.radius : ℚ) ≥ (HEIGHT : ℚ)) :
    b.update.ball.y_fac = -b.y_fac := by
  rw [Ball.update_y_fac, if_pos hcross]
  ring

/-- Witness for C8: a ball at `y = 10` moving up crosses the top edge this
tick and comes out with `y_fac` negated. -/
theorem C8_witness :
    (Ball.update ⟨450, 10, 8, 4, 1, -1, true⟩).ball.y_fac = -(-1) :=
  C8_wall_reflection ⟨450, 10, 8, 4, 1, -1, true⟩
    (by constructor <;> norm_num [HEIGHT]) (Or.inl (by norm_num))

/-- Inductive invariant for the vertical dynamics of the game's ball under
bare `Ball.update` calls: speed 4 and radius 8 are constant, `pos_y` sits on
the lattice `8 + 4k` with `0 ≤ k ≤ 146` (hence inside `[8, 592]`), and a
ball moving up (`y_fac = -1`) is at least at `y = 12` while a ball moving
down (`y_fac = 1`) is at most at `y = 588`. -/
def yInv (b : Ball) : Prop :=
  b.speed = 4 ∧ b.radius = 8
  ∧ (∃ k : ℤ, b.pos_y = 8 + 4 * (k : ℚ) ∧ 0 ≤ k ∧ k ≤ 146)
  ∧ ((b.y_fac = -1 ∧ 12 ≤ b.pos_y) ∨ (b.y_fac = 1 ∧ b.pos_y ≤ 588))

/-- The ball `main()` constructs satisfies the vertical invariant. -/
theorem yInv_ball0 : yInv ball0 := by
  refine ⟨by norm_num [ball0, Ball.init], rfl,
    ⟨73, by norm_num [ball0, Ball.init], by norm_num, by norm_num⟩,
    Or.inl ⟨rfl, by norm_num [ball0, Ball.init]⟩⟩

/-- One `Ball.update` preserves the vertical invariant, and flips `y_fac`
exactly on the updates that land the vertical edge on a wall (`y = 8` or
`y = 592` for radius 8 in the 600-high arena). -/
theorem yInv_step (b : Ball) (h : yInv b) :
    yInv b.update.ball
  ∧ b.update.ball.y_fac =
      (if b.update.ball.pos_y = 8 ∨ b.update.ball.pos_y = 592
       then -b.y_fac else b.y_fac) := by
  obtain ⟨hs, hr, ⟨k, hk, hk0, hk1⟩, hf⟩ := h
  have hk0q : (0 : ℚ) ≤ (k : ℚ) := by exact_mod_cast hk0
  have hk1q : (k : ℚ) ≤ 146 := by exact_mod_cast hk1
  have hpy := Ball.update_pos_y b
  have hyf := Ball.update_y_fac b
  have hsp := Ball.update_speed b
  have hrad := Ball.update_radius b
  rcases hf with ⟨hf1, hf2⟩ | ⟨hf1, hf2⟩
  · -- the ball is moving up
    have hpy2 : b.update.ball.pos_y = 4 + 4 * (k : ℚ) := by
      rw [hpy, hk, hs, hf1]
      ring
    have hk2 : (1 : ℤ) ≤ k := by
      have h12 : (12 : ℚ) ≤ 8 + 4 * (k : ℚ) := by
        rw [← hk]
        exact hf2
      have h1k : (1 : ℚ) ≤ (k : ℚ) := by linarith
      exact_mod_cast h1k
    rcases eq_or_lt_of_le hk2 with heq | hlt
    · -- `k = 1`: the move lands the top edge on the wall and flips `y_fac`
      have hkq : (k : ℚ) = 1 := by exact_mod_cast heq.symm
      have hpy8 : b.update.ball.pos_y = 8 := by
        rw [hpy2, hkq]
        norm_num
      have hcond : b.pos_y + b.speed * b.y_fac - (b.radius : ℚ) ≤ 0
          ∨ b.pos_y + b.speed * b.y_fac + (b.radius : ℚ) ≥ (HEIGHT : ℚ) := by
        left
        rw [hk, hs, hf1, hr, hkq]
        norm_num
      have hyf2 : b.update.ball.y_fac = 1 := by
        rw [hyf, if_pos hcond, hf1]
        norm_num
      refine ⟨⟨hsp.trans hs, hrad.trans hr,
        ⟨0, by rw [hpy8]; norm_num, le_refl 0, by norm_num⟩,
        Or.inr ⟨hyf2, by rw [hpy8]; norm_num⟩⟩, ?_⟩
      rw [if_pos (Or.inl hpy8), hyf2, hf1]
      norm_num
    · -- `1 < k`: the move stays strictly inside, no flip
      have hk2q : (2 : ℚ) ≤ (k : ℚ) := by
        have h2k : (2 : ℤ) ≤ k := hlt
        exact_mod_cast h2k
      have hncond : ¬(b.pos_y + b.speed * b.y_fac - (b.radius : ℚ) ≤ 0
          ∨ b.pos_y + b.speed * b.y_fac + (b.radius : ℚ) ≥ (HEIGHT : ℚ)) := by
        rw [hk, hs, hf1, hr]
        push_cast [HEIGHT]
        intro hor
        rcases hor with hA | hB
        · linarith
        · linarith
      have hyf2 : b.update.ball.y_fac = -1 := by
        rw [hyf, if_neg hncond]
        exact hf1
      refine ⟨⟨hsp.trans hs, hrad.trans hr,
        ⟨k - 1, by rw [hpy2]; push_cast; ring, by omega, by omega⟩,
        Or.inl ⟨hyf2, by rw [hpy2]; linarith⟩⟩, ?_⟩
      have hne : ¬(b.update.ball.pos_y = 8 ∨ b.update.ball.pos_y = 592) := by
        rw [hpy2]
        intro hor
        rcases hor with hA | hB
        · linarith
        · linarith
      rw [if_neg hne, hyf2, hf1]
  · -- the ball is moving down
    have hpy2 : b.update.ball.pos_y = 12 + 4 * (k : ℚ) := by
      rw [hpy, hk, hs, hf1]
      ring
    have hk3 : k ≤ 145 := by
      have h588 : 8 + 4 * (k : ℚ) ≤ 588 := by
        rw [← hk]
        exact hf2
      have hkq : (k : ℚ) ≤ 145 := by linarith
      exact_mod_cast hkq
    rcases eq_or_lt_of_le hk3 with heq | hlt
    · -- `k = 145`: the move lands the bottom edge on the wall and flips
      have hkq : (k : ℚ) = 145 := by exact_mod_cast heq
      have hpy592 : b.update.ball.pos_y = 592 := by
        rw [hpy2, hkq]
        norm_num
      have hcond : b.pos_y + b.speed * b.y_fac - (b.radius : ℚ) ≤ 0
          ∨ b.pos_y + b.speed * b.y_fac + (b.radius : ℚ) ≥ (HEIGHT : ℚ) := by
        right
        rw [hk, hs, hf1, hr, hkq]
        push_cast [HEIGHT]
        norm_num
      have hyf2 : b.update.ball.y_fac = -1 := by
        rw [hyf, if_pos hcond, hf1]
        norm_num
      refine ⟨⟨hsp.trans hs, hrad.trans hr,
        ⟨146, by rw [hpy592]; norm_num, by norm_num, le_refl 146⟩,
        Or.inl ⟨hyf2, by rw [hpy592]; norm_num⟩⟩, ?_⟩
      rw [if_pos (Or.inr hpy592), hyf2, hf1]
    · -- `k < 145`: the move stays strictly inside, no flip
      have hk4q : (k : ℚ) ≤ 144 := by
        have h4 : k ≤ 144 := by omega
        exact_mod_cast h4
      have hncond : ¬(b.pos_y + b.speed * b.y_fac - (b.radius : ℚ) ≤ 0
          ∨ b.pos_y + b.speed * b.y_fac + (b.radius : ℚ) ≥ (HEIGHT : ℚ)) := by
        rw [hk, hs, hf1, hr]
        push_cast [HEIGHT]
        intro hor
        rcases hor with hA | hB
        · linarith
        · linarith
      have hyf2 : b.update.ball.y_fac = 1 := by
        rw [hyf, if_neg hncond]
        exact hf1
      refine ⟨⟨hsp.trans hs, hrad.trans hr,
        ⟨k + 1, by rw [hpy2]; push_cast; ring, by omega, by omega⟩,
        Or.inr ⟨hyf2, by rw [hpy2]; linarith⟩⟩, ?_⟩
      have hne : ¬(b.update.ball.pos_y = 8 ∨ b.update.ball.pos_y = 592) := by
        rw [hpy2]
        intro hor
        rcases hor with hA | hB
        · linarith
        · linarith
      rw [if_neg hne, hyf2, hf1]

/-- Every iterate of the game's ball satisfies the vertical invariant. -/
theorem yInv_ballIter (n : ℕ) : yInv (ballIter n) := by
  induction n with
  | zero => exact yInv_ball0
  | succ m ih => exact (yInv_step (ballIter m) ih).1

/-- Claim C9: in the 900x600 arena, the ball of `main()` (radius 8, center
`(450, 300)`, `x_fac = 1`, `y_fac = -1`, per-tick speed 4) keeps its
y-coordinate within the `[8, 592]` envelope for every number of bare
`Ball.update` calls, `y_fac` stays a unit factor, and its sign alternates
exactly at each boundary touch (each update that lands `pos_y` on 8 or 592
negates `y_fac`; every other update leaves it unchanged). -/
theorem C9_trajectory_envelope (n : ℕ) :
    (8 ≤ (ballIter n).pos_y ∧ (ballIter n).pos_y ≤ 592)
  ∧ ((ballIter n).y_fac = 1 ∨ (ballIter n).y_fac = -1)
  ∧ (ballIter (n + 1)).y_fac =
      (if (ballIter (n + 1)).pos_y = 8 ∨ (ballIter (n + 1)).pos_y = 592
       then -(ballIter n).y_fac else (ballIter n).y_fac) := by
  obtain ⟨hs, hr, ⟨k, hk, hk0, hk1⟩, hf⟩ := yInv_ballIter n
  have hk0q : (0 : ℚ) ≤ (k : ℚ) := by exact_mod_cast hk0
  have hk1q : (k : ℚ) ≤ 146 := by exact_mod_cast hk1
  refine ⟨⟨by rw [hk]; linarith, by rw [hk]; linarith⟩, ?_,
    (yInv_step (ballIter n) (yInv_ballIter n)).2⟩
  rcases hf with ⟨h1, _⟩ | ⟨h1, _⟩
  · exact Or.inr h1
  · exact Or.inl h1

/-- Claim C10: the `Ball` constructor stores half the `speed` argument as
the per-tick speed, so each update advances each coordinate by
`(speed / 2) * fac`; the game's ball, built with `speed = 8`, therefore
moves 4 units per axis per tick. -/
theorem C10_half_speed :
    (∀ (x y : ℚ) (r : ℤ) (s : ℚ), (Ball.init x y r s).speed = s / 2)
  ∧ (∀ b : Ball, b.update.ball.pos_x = b.pos_x + b.speed * b.x_fac
        ∧ b.update.ball.pos_y = b.pos_y + b.speed * b.y_fac)
  ∧ ball0.speed = 4 := by
  refine ⟨fun x y r s => ?_, fun b => ⟨Ball.update_pos_x b, Ball.update_pos_y b⟩, ?_⟩
  · show s * (1 / 2) = s / 2
    ring
  · show (8 : ℚ) * (1 / 2) = 4
    norm_num

end Pong
